import Mathlib

/-!
# Verification of the Sweet Bonanza game backend

Shallow embedding of the lobby round engine (`src/services/sweetBonanzaService.js`)
and the solo play controller (`src/controllers/sweetBonanza.controller.js`).

Conventions of the embedding:
* JS numbers are modelled as `ℚ` (amounts, multipliers, random draws) or as
  `Int`/`Nat` where the source only ever holds integers (`timeLeft`, counters).
* Sides, phases and decisions are the literal strings of the source
  (`"win"`, `"loss"`, `"BETTING"`, `"SPINNING"`, `"RESULT"`).
* `Math.random()` is modelled by explicit draw parameters in `[0,1)`, or by an
  explicit stream/function of draws where the source draws in a loop.
* The slot grids are flattened: the lobby grid `reels[c][r]` (6 columns of 5)
  becomes a `List String` of length 30 at index `c*5 + r`; the solo grid
  `reels[c][r]` (6 reels of 3) becomes a `List String` of length 18 at index
  `c*3 + r`.  The source iterates columns outer / rows inner, which is exactly
  the flat order.
* The Mongo collections touched by settlement (`User.balance`, `Transaction`,
  `BalanceHistory`) are modelled by the explicit ledger state `DB` below.
* The solo symbol emoji are transliterated: 🍇 grape, 🍊 orange, 🍋 lemon,
  🍉 watermelon, 🍌 banana, 🍎 apple, 🍓 strawberry, ⭐ star, 💎 diamond.
-/

/-- A lobby bet as pushed by `addBet`:
`{ userId, betAmount: Number(betAmount), side }`. -/
structure Bet where
  userId : String
  betAmount : ℚ
  side : String
  deriving DecidableEq, Repr

/-- The lobby grid/outcome record returned by `generateSlotOutcome`
(`{ reels, outcome, winAmount }`; the `topWinners` list added later by
`generateWinnersList` is display-only and not needed by any claim). -/
structure LobbyOutcome where
  reels : List String
  outcome : String
  winAmount : ℚ
  deriving DecidableEq, Repr

/-- The mutable singleton `this.session` of `SweetBonanzaService`.
`roundCycle` is `Option Nat` because the constructor does not set it at all
(it first appears in `startNewRound`); JS reads of the missing field yield
`undefined`, modelled as `none`. -/
structure SessionState where
  roundId : String
  phase : String
  timeLeft : Int
  roundCount : Nat
  roundCycle : Option Nat
  bets : List Bet
  adminDecision : Option String
  result : Option LobbyOutcome
  deriving DecidableEq, Repr

/-- `ROUND_TIMES = { BETTING: 10, SPINNING: 15, RESULT: 10 }`. -/
def ROUND_TIMES_BETTING : Int := 10
def ROUND_TIMES_SPINNING : Int := 15
def ROUND_TIMES_RESULT : Int := 10

/-- `winBetsTotal`: `bets.filter(b => b.side === 'win')
 .reduce((sum, b) => sum + (Number(b.betAmount) || 0), 0)`. -/
def winBetsTotal (bets : List Bet) : ℚ :=
  ((bets.filter (fun b => b.side == "win")).map (fun b => b.betAmount)).sum

/-- `lossBetsTotal`: same reduction over the `'loss'`-side bets. -/
def lossBetsTotal (bets : List Bet) : ℚ :=
  ((bets.filter (fun b => b.side == "loss")).map (fun b => b.betAmount)).sum

/-- `majoritySide = winBetsTotal >= lossBetsTotal ? 'win' : 'loss'`. -/
def majoritySide (bets : List Bet) : String :=
  if lossBetsTotal bets ≤ winBetsTotal bets then "win" else "loss"

/-- `minoritySide = majoritySide === 'win' ? 'loss' : 'win'`. -/
def minoritySide (bets : List Bet) : String :=
  if majoritySide bets = "win" then "loss" else "win"

/-- The decision computation at the head of `calculateResult`:
`let decision = adminDecision; if (!decision) { ... roundCycle cases ... }`.
JS string falsiness: an empty-string override is falsy, so the algorithm
still runs; an absent `roundCycle` (`none`) matches neither `=== 1` nor
`=== 5` and falls to the anti-majority default. -/
def computeDecision (adminDecision : Option String) (roundCycle : Option Nat)
    (bets : List Bet) : String :=
  let algo :=
    if roundCycle = some 1 then minoritySide bets
    else if roundCycle = some 5 then majoritySide bets
    else minoritySide bets
  match adminDecision with
  | some d => if d = "" then algo else d
  | none => algo

/-- `addBet(userId, betAmount, side)`: reject outside BETTING, reject with
`timeLeft < 1`, otherwise push the bet.  Returns (success flag, new session). -/
def addBet (s : SessionState) (userId : String) (betAmount : ℚ) (side : String) :
    Bool × SessionState :=
  if s.phase ≠ "BETTING" then (false, s)
  else if s.timeLeft < 1 then (false, s)
  else (true, { s with bets := s.bets ++ [⟨userId, betAmount, side⟩] })

/-- `setAdminDecision(decision)`: ignored unless `phase === 'SPINNING'`. -/
def setAdminDecision (s : SessionState) (decision : String) : SessionState :=
  if s.phase ≠ "SPINNING" then s
  else { s with adminDecision := some decision }

/-- `startNewRound()` (the RESULT→BETTING transition); `newId` stands for the
fresh `'SB-' + Date.now()` token. -/
def startNewRound (s : SessionState) (newId : String) : SessionState :=
  { s with
    roundCount := s.roundCount + 1
    roundCycle := some ((s.roundCount + 1 - 1) % 5 + 1)
    roundId := newId
    phase := "BETTING"
    timeLeft := ROUND_TIMES_BETTING
    bets := []
    adminDecision := none
    result := none }

/-- The tick-failure recovery in the `catch` block of `startLoop`:
`this.session.phase = 'BETTING'; this.session.timeLeft = 10;`
and nothing else is touched. -/
def recoverSession (s : SessionState) : SessionState :=
  { s with phase := "BETTING", timeLeft := 10 }

/-- The snapshot object returned by `getState` (the `result` field is the
session's `result` verbatim and is omitted here; no claim reads it from the
snapshot). -/
structure Snapshot where
  phase : String
  timeLeft : Int
  roundId : String
  roundCycle : Nat
  adminDecision : Option String
  betsCount : Nat
  viewersCount : Nat
  totalPlayers : Nat
  betsTotalsWin : ℚ
  betsTotalsLoss : ℚ
  deriving DecidableEq, Repr

/-- `this.activePlayers.add(userId.toString())` on a `Set`, modelled as a
duplicate-free append on a list. -/
def addActive (l : List String) (id : String) : List String :=
  if id ∈ l then l else l ++ [id]

/-- `getState(userId)`: records the caller into `activePlayers` (unless
anonymous), then builds the snapshot.  Returns the snapshot together with the
updated active-players set. -/
def getState (s : SessionState) (active : List String) (userId : Option String) :
    Snapshot × List String :=
  let active :=
    match userId with
    | some uid => if uid ≠ "anonymous" then addActive active uid else active
    | none => active
  let uniqueBetters :=
    (s.bets.map (fun b => if b.userId = "" then "guest" else b.userId)).dedup
  ({ phase := s.phase
     timeLeft := max 0 s.timeLeft
     roundId := s.roundId
     roundCycle := s.roundCycle.getD 1
     adminDecision := s.adminDecision
     betsCount := s.bets.length
     viewersCount := active.length - uniqueBetters.length
     totalPlayers := max active.length s.bets.length
     betsTotalsWin := winBetsTotal s.bets
     betsTotalsLoss := lossBetsTotal s.bets }, active)

/-! ## Lobby grid generation (`generateSlotOutcome`) -/

/-- `SYMBOLS` of the lobby generator. -/
def SYMBOLS : List String :=
  ["oval", "grapes", "watermelon", "apple", "plum", "banana", "heart"]

/-- Occurrences of a symbol in a (flattened) grid. -/
def countSym (sym : String) (g : List String) : Nat :=
  g.count sym

/-- One symbol's pass of the loss-branch scan of `generateSlotOutcome`:
walk the cells in scan order carrying the running `count`; from the 8th
occurrence of `sym` on, each occurrence is replaced by a fresh draw of a
symbol different from `sym` (the source redraws in a `do…while` until
`nextSym !== sym`; `src n` models the n-th accepted draw, so `src n ≠ sym`
whenever it is consumed during the pass for `sym`).  Returns the rewritten
cells and the next unused draw index. -/
def fixSym (sym : String) (src : Nat → String) :
    List String → Nat → Nat → List String × Nat
  | [], _, n => ([], n)
  | cell :: rest, count, n =>
    if cell = sym then
      let count := count + 1
      if 8 ≤ count then
        let t := fixSym sym src rest count (n + 1)
        (src n :: t.1, t.2)
      else
        let t := fixSym sym src rest count n
        (cell :: t.1, t.2)
    else
      let t := fixSym sym src rest count n
      (cell :: t.1, t.2)

/-- The whole loss branch: one `fixSym` pass per symbol, in `SYMBOLS` order,
threading the replacement-draw stream. -/
def fixLossGrid (src : Nat → String) (g : List String) : List String :=
  (SYMBOLS.foldl (fun acc sym => fixSym sym src acc.1 0 acc.2) (g, 0)).1

/-- The win branch's forcing loop
`while (count < 12) { pick (c,r); if (reels[c][r] !== winSym) { mutate; count++ } }`,
run against an explicit finite list of random cell picks.  `some g` when the
12th mutation happens (or the pick list ends with `count` already at 12),
`none` when the picks run out first — a real run that never reaches 12
mutations loops forever drawing ever more picks, which is exactly
"`none` for every finite pick list" in this model. -/
def forceWinLoop (sym : String) :
    List (Fin 6 × Fin 5) → List String → Nat → Option (List String)
  | [], g, count => if 12 ≤ count then some g else none
  | (c, r) :: rest, g, count =>
    if 12 ≤ count then some g
    else if g.getD (c.val * 5 + r.val) "" ≠ sym then
      forceWinLoop sym rest (g.set (c.val * 5 + r.val) sym) (count + 1)
    else
      forceWinLoop sym rest g count

/-- Entry point of the win branch with mutation counter 0. -/
def forceWin (sym : String) (picks : List (Fin 6 × Fin 5)) (g : List String) :
    Option (List String) :=
  forceWinLoop sym picks g 0

/-! ## Ledger state and lobby settlement (`processPayouts`) -/

/-- A row of the `users` collection as far as the game code touches it. -/
structure UserRec where
  balance : ℚ
  status : String
  totalWinnings : ℚ
  deriving DecidableEq, Repr

/-- A `Transaction` document (the fields the claims are about). -/
structure Tx where
  user : String
  txType : String
  amount : ℚ
  deriving DecidableEq, Repr

/-- A `BalanceHistory` document (the fields the claims are about). -/
structure HistRec where
  user : String
  changeType : String
  previousBalance : ℚ
  newBalance : ℚ
  change : ℚ
  deriving DecidableEq, Repr

/-- The ledger/account state mutated by settlement: user balances plus the
two append-only collections. -/
structure DB where
  users : List (String × UserRec)
  transactions : List Tx
  histories : List HistRec
  deriving DecidableEq, Repr

/-- `User.findById(id)`. -/
def findUser (db : DB) (id : String) : Option UserRec :=
  (db.users.find? (fun p => p.1 == id)).map (fun p => p.2)

/-- Balance of a user (0 when absent), for reading settlement results. -/
def balanceOf (db : DB) (id : String) : ℚ :=
  ((findUser db id).map (fun u => u.balance)).getD 0

/-- Apply an update to the one user row with the given id
(`User.updateOne({_id: id}, …)` / `user.save()`). -/
def updateUser (users : List (String × UserRec)) (id : String)
    (f : UserRec → UserRec) : List (String × UserRec) :=
  users.map (fun p => if p.1 = id then (p.1, f p.2) else p)

/-- One iteration of the `for (const bet of this.session.bets)` loop in
`processPayouts`: skip anonymous bettors and unknown users; on a win,
`$inc` the balance by `betAmount * 2` and append a completed `game_win`
transaction; on a loss, append a completed `game_loss` transaction of the
stake.  (The source's loss branch contains no balance update and neither
branch writes a `BalanceHistory` record.) -/
def settleBet (slotOutcome : String) (db : DB) (bet : Bet) : DB :=
  if bet.userId = "anonymous" then db
  else
    match findUser db bet.userId with
    | none => db
    | some _ =>
      let betAmount := bet.betAmount
      if bet.side = slotOutcome then
        let payout := betAmount * 2
        { db with
          users := updateUser db.users bet.userId
            (fun u => { u with balance := u.balance + payout })
          transactions := db.transactions ++ [⟨bet.userId, "game_win", payout⟩] }
      else
        { db with
          transactions := db.transactions ++ [⟨bet.userId, "game_loss", betAmount⟩] }

/-- `processPayouts(slotOutcome, …)`: settle every bet of the round in order. -/
def processPayouts (slotOutcome : String) (db : DB) (bets : List Bet) : DB :=
  bets.foldl (settleBet slotOutcome) db

/-! ## Solo mode (`sweetBonanza.controller.js`) -/

/-- The nine weighted solo symbols, transliterated from the emoji of
`SYMBOL_WEIGHTS`. -/
def SOLO_SYMBOLS : List String :=
  ["grape", "orange", "lemon", "watermelon", "banana",
   "apple", "strawberry", "star", "diamond"]

/-- `SYMBOL_MULTIPLIERS[symbol] || 1` (the `|| 1` default for an unknown
symbol). -/
def multOf : String → ℚ
  | "diamond" => 20
  | "star" => 10
  | "strawberry" => 5
  | "apple" => 3
  | "banana" => 2
  | "watermelon" => 3 / 2
  | "lemon" => 6 / 5
  | "orange" => 11 / 10
  | "grape" => 1
  | _ => 1

/-- Number of reels carrying `sym` at row `row` — the `count` of the
`symbolCounts` group keyed `row + '-' + sym` (cell `c*3 + row` of the
flattened 6×3 solo grid). -/
def colCount (g : List String) (row : Nat) (sym : String) : Nat :=
  ((List.range 6).filter (fun c => g.getD (c * 3 + row) "" == sym)).length

/-- The per-group payout of `generateReelResult`: count ≥ 5 pays
`mult * (count-4) * 0.7`, count = 4 pays `mult * 0.6`, count = 3 pays
`mult * 0.4` only when the group's fresh `Math.random()` draw is `< 0.3`. -/
def lineContribution (bet mult : ℚ) (count : Nat) (draw : ℚ) : ℚ :=
  if 5 ≤ count then bet * (mult * ((count : ℚ) - 4) * (7 / 10))
  else if 4 ≤ count then bet * (mult * (3 / 5))
  else if count = 3 ∧ draw < 3 / 10 then bet * (mult * (2 / 5))
  else 0

/-- Sum of the line payouts over every `symbolCounts` group: rows 0–2 crossed
with the symbols occurring in the grid (a group with `count` 0, 1 or 2
contributes 0 exactly as in the source, where sub-3 groups simply pay
nothing).  `draw row sym` is the group's fresh random draw. -/
def lineWins (g : List String) (bet : ℚ) (draw : Nat → String → ℚ) : ℚ :=
  ((List.range 3).map (fun row =>
    ((g.dedup).map (fun sym =>
      lineContribution bet (multOf sym) (colCount g row sym) (draw row sym))).sum)).sum

/-- `reels.flat().filter(s => s === '⭐' || s === '💎').length`. -/
def scatterCount (g : List String) : Nat :=
  (g.filter (fun s => s == "star" || s == "diamond")).length

/-- The scatter block of `generateReelResult`:
`sc ≥ 5` pays `sc === 5 ? 1.5 : sc ≥ 6 ? 2.5 : 0` of the bet, else
`sc ≥ 4` pays `1.0` of the bet, else `sc === 3` pays `0.6` of the bet only
when the fresh draw is `< 0.2`. -/
def scatterContribution (bet : ℚ) (sc : Nat) (draw : ℚ) : ℚ :=
  if 5 ≤ sc then
    bet * (if sc = 5 then 3 / 2 else if 6 ≤ sc then 5 / 2 else 0)
  else if 4 ≤ sc then bet * 1
  else if sc = 3 ∧ draw < 1 / 5 then bet * (3 / 5)
  else 0

/-- `Math.floor(totalWin * 100) / 100`. -/
def roundTo2 (q : ℚ) : ℚ :=
  ((⌊q * 100⌋ : ℤ) : ℚ) / 100

/-- `generateReelResult(betAmount).winAmount` for a given grid and random
draws: line wins plus scatter win, rounded down to 2 decimals. -/
def soloWinAmount (g : List String) (bet : ℚ) (draw : Nat → String → ℚ)
    (sdraw : ℚ) : ℚ :=
  roundTo2 (lineWins g bet draw + scatterContribution bet (scatterCount g) sdraw)

/-- The loss-multiplier draw of `playGame` for `actualWin === 0`:
selector `r = Math.random()` picks one of four bands, a second fresh draw
`u` places the multiplier inside the band:
`r < 0.25 → 1.0 + u*0.15`, `r < 0.6 → 1.15 + u*0.20`,
`r < 0.85 → 1.35 + u*0.25`, else `1.6 + u*0.20`. -/
def lossMultiplier (r u : ℚ) : ℚ :=
  if r < 1 / 4 then 1 + u * (3 / 20)
  else if r < 3 / 5 then 23 / 20 + u * (1 / 5)
  else if r < 17 / 20 then 27 / 20 + u * (1 / 4)
  else 8 / 5 + u * (1 / 5)

/-- The `actualLoss` pipeline of `playGame`: on the losing path
(`actualWin === 0`) multiply the stake by the drawn multiplier, cap at the
pre-play balance and floor at 0; on a win the loss is the plain stake;
both paths end in the common final clamp
`Math.max(0, Math.min(actualLoss, userBalance))`. -/
def soloActualLoss (bet balance actualWin r u : ℚ) : ℚ :=
  let a :=
    if actualWin = 0 then
      let a0 := bet * lossMultiplier r u
      let a1 := if balance < a0 then balance else a0
      max 0 a1
    else bet
  max 0 (min a balance)

/-- The debit drawn on the losing path (`soloActualLoss` at `actualWin = 0`). -/
def soloLossDebit (bet balance r u : ℚ) : ℚ :=
  soloActualLoss bet balance 0 r u

/-- The final balance of `playGame`: `Math.max(0, userBalance - actualLoss)`
plus — only on a win — the win amount. -/
def soloFinalBalance (balance actualWin actualLoss : ℚ) : ℚ :=
  let after := max 0 (balance - actualLoss)
  if 0 < actualWin then after + actualWin else after

/-- The committed success state of `playGame`: updated user row plus exactly
one appended Transaction and exactly one appended BalanceHistory record. -/
def soloCommit (db : DB) (userId : String) (balance actualWin actualLoss : ℚ) : DB :=
  let netChange := actualWin - actualLoss
  let finalBalance := soloFinalBalance balance actualWin actualLoss
  { users := updateUser db.users userId (fun v =>
      { v with
        balance := finalBalance
        totalWinnings :=
          if 0 < actualWin then v.totalWinnings + actualWin
          else v.totalWinnings })
    transactions := db.transactions ++
      [⟨userId, if 0 < actualWin then "game_win" else "game_loss", |netChange|⟩]
    histories := db.histories ++
      [⟨userId, if 0 < actualWin then "win" else "loss",
        balance, soloFinalBalance balance actualWin actualLoss, netChange⟩] }

/-- `playGame`: validation, the balance/ledger mutation and the all-or-nothing
commit, embedded over the ledger state `DB`.  The randomness is explicit:
`grid` is the drawn 6×3 grid, `draw`/`sdraw` the line/scatter draws of
`generateReelResult`, `lossR`/`lossU` the two loss-multiplier draws.
Validation failures and the final negative-balance guard abort with
`Except.error` and leave the state untouched (the aborted Mongo
transaction); success returns the committed state. -/
def soloPlay (db : DB) (userId : String) (bet : ℚ) (grid : List String)
    (draw : Nat → String → ℚ) (sdraw lossR lossU : ℚ) : Except String DB :=
  if bet ≤ 0 then Except.error "Bet amount must be greater than 0"
  else if bet < 1 then Except.error "Minimum bet amount is 1"
  else if 1000000 < bet then Except.error "Maximum bet exceeded"
  else
    match findUser db userId with
    | none => Except.error "User not found"
    | some user =>
      if user.status ≠ "active" ∧ user.status ≠ "pending" then
        Except.error "Account not playable"
      else if user.balance < bet then Except.error "Insufficient balance"
      else
        let actualWin := max 0 (soloWinAmount grid bet draw sdraw)
        let actualLoss := soloActualLoss bet user.balance actualWin lossR lossU
        if soloFinalBalance user.balance actualWin actualLoss < 0 then
          Except.error "Invalid balance calculation"
        else
          Except.ok (soloCommit db userId user.balance actualWin actualLoss)

/-! ## Helper lemmas -/

/-- Appending one bet adds its stake to the win-side total exactly when its
side is `"win"`. -/
theorem winBetsTotal_append (l : List Bet) (b : Bet) :
    winBetsTotal (l ++ [b]) =
      winBetsTotal l + (if b.side = "win" then b.betAmount else 0) := by
  by_cases h : b.side = "win" <;>
    simp [winBetsTotal, List.filter_append, h]

/-- Appending one bet adds its stake to the loss-side total exactly when its
side is `"loss"`. -/
theorem lossBetsTotal_append (l : List Bet) (b : Bet) :
    lossBetsTotal (l ++ [b]) =
      lossBetsTotal l + (if b.side = "loss" then b.betAmount else 0) := by
  by_cases h : b.side = "loss" <;>
    simp [lossBetsTotal, List.filter_append, h]

/-! ## C3 — decision policy -/

/-- C3: without an admin override, the lobby decision at round-cycle
positions 1 and 2–4 is the minority-stake side and at position 5 the
majority-stake side, where the majority side is the side with the greater
summed stake and a tie makes the majority side `"win"`. -/
theorem lobby_decision_policy (bets : List Bet) (c : Nat)
    (h1 : 1 ≤ c) (h5 : c ≤ 5) :
    (c ≠ 5 → computeDecision none (some c) bets = minoritySide bets) ∧
    (c = 5 → computeDecision none (some c) bets = majoritySide bets) ∧
    (lossBetsTotal bets ≤ winBetsTotal bets → majoritySide bets = "win") ∧
    (winBetsTotal bets < lossBetsTotal bets → majoritySide bets = "loss") := by
  refine ⟨?_, ?_, ?_, ?_⟩
  · intro hne
    interval_cases c <;> simp_all [computeDecision]
  · rintro rfl
    simp [computeDecision]
  · intro h
    simp [majoritySide, h]
  · intro h
    simp [majoritySide, not_le.mpr h]

/-- Witness for C3: cycle position 3 with 20 staked on `win` and 50 on
`loss` decides the minority side `"win"`. -/
theorem lobby_decision_policy_witness :
    computeDecision none (some 3) [⟨"a", 20, "win"⟩, ⟨"b", 50, "loss"⟩] = "win" := by
  have hw : winBetsTotal [⟨"a", 20, "win"⟩, ⟨"b", 50, "loss"⟩] = 20 := by
    simp [winBetsTotal]
  have hl : lossBetsTotal [⟨"a", 20, "win"⟩, ⟨"b", 50, "loss"⟩] = 50 := by
    simp [lossBetsTotal]
  have h := (lobby_decision_policy [⟨"a", 20, "win"⟩, ⟨"b", 50, "loss"⟩] 3
    (by norm_num) (by norm_num)).1 (by norm_num)
  rw [h]
  simp only [minoritySide, majoritySide, hw, hl]
  rw [if_neg (by norm_num : ¬ (50 : ℚ) ≤ 20)]
  rw [if_neg (by decide : ¬ ("loss" = "win"))]

/-! ## C7 — placeBet acceptance -/

/-- C7: `addBet` succeeds exactly when the phase is BETTING and
`timeLeft ≥ 1`; a successful bet is appended and shows up in the next
snapshot's `betsCount` and `betsTotals`; a rejected bet leaves the round
state unchanged. -/
theorem placeBet_spec (s : SessionState) (active : List String)
    (caller : Option String) (uid : String) (amt : ℚ) (side : String) :
    ((addBet s uid amt side).1 = true ↔ (s.phase = "BETTING" ∧ 1 ≤ s.timeLeft)) ∧
    ((addBet s uid amt side).1 = true →
      ((addBet s uid amt side).2.bets = s.bets ++ [⟨uid, amt, side⟩] ∧
       (getState (addBet s uid amt side).2 active caller).1.betsCount =
         (getState s active caller).1.betsCount + 1 ∧
       (getState (addBet s uid amt side).2 active caller).1.betsTotalsWin =
         (getState s active caller).1.betsTotalsWin +
           (if side = "win" then amt else 0) ∧
       (getState (addBet s uid amt side).2 active caller).1.betsTotalsLoss =
         (getState s active caller).1.betsTotalsLoss +
           (if side = "loss" then amt else 0))) ∧
    ((addBet s uid amt side).1 = false → (addBet s uid amt side).2 = s) := by
  by_cases hp : s.phase = "BETTING"
  · by_cases ht : s.timeLeft < 1
    · refine ⟨?_, ?_, ?_⟩ <;> simp [addBet, hp, ht]
    · refine ⟨?_, ?_, ?_⟩
      · simp [addBet, hp, ht]
        omega
      · intro _
        refine ⟨by simp [addBet, hp, ht], ?_, ?_, ?_⟩ <;>
          simp [addBet, hp, ht, getState, winBetsTotal_append, lossBetsTotal_append]
      · simp [addBet, hp, ht]
  · refine ⟨?_, ?_, ?_⟩ <;> simp [addBet, hp]

/-- Witness for C7: in BETTING with 5 seconds left the bet is accepted and
recorded. -/
theorem placeBet_spec_witness :
    (addBet ⟨"SB-1", "BETTING", 5, 3, some 4, [], none, none⟩ "u1" 25 "win").1 = true ∧
    (addBet ⟨"SB-1", "BETTING", 5, 3, some 4, [], none, none⟩ "u1" 25 "win").2.bets =
      [⟨"u1", 25, "win"⟩] := by
  have h := placeBet_spec ⟨"SB-1", "BETTING", 5, 3, some 4, [], none, none⟩
    [] none "u1" 25 "win"
  have hs : (addBet ⟨"SB-1", "BETTING", 5, 3, some 4, [], none, none⟩ "u1" 25 "win").1 = true :=
    h.1.mpr ⟨rfl, by norm_num⟩
  exact ⟨hs, by simpa using (h.2.1 hs).1⟩

/-! ## C8 — admin override -/

/-- C8: an override set during SPINNING is stored and used verbatim as the
round decision regardless of bet totals and cycle position; an override
attempted during BETTING or RESULT leaves the session (hence the current
round's decision and the next round's start) unchanged. -/
theorem admin_override_spec (s : SessionState) (d nid : String)
    (rc : Option Nat) (bets : List Bet) (hd : d = "win" ∨ d = "loss") :
    (s.phase = "SPINNING" →
      ((setAdminDecision s d).adminDecision = some d ∧
       computeDecision (setAdminDecision s d).adminDecision rc bets = d)) ∧
    (s.phase = "BETTING" ∨ s.phase = "RESULT" →
      (setAdminDecision s d = s ∧
       startNewRound (setAdminDecision s d) nid = startNewRound s nid)) := by
  have hds : d ≠ "" := by rcases hd with h | h <;> subst h <;> decide
  constructor
  · intro hp
    have h1 : (setAdminDecision s d).adminDecision = some d := by
      simp [setAdminDecision, hp]
    exact ⟨h1, by rw [h1]; simp [computeDecision, hds]⟩
  · intro hp
    have hne : s.phase ≠ "SPINNING" := by
      rcases hp with h | h <;> rw [h] <;> decide
    simp [setAdminDecision, hne]

/-- Witness for C8: an override `"win"` set during SPINNING is stored. -/
theorem admin_override_spec_witness :
    (setAdminDecision ⟨"SB-2", "SPINNING", 7, 3, some 4, [], none, none⟩ "win").adminDecision =
      some "win" :=
  ((admin_override_spec ⟨"SB-2", "SPINNING", 7, 3, some 4, [], none, none⟩
    "win" "SB-3" (some 4) [] (Or.inl rfl)).1 rfl).1

/-! ## C10 — tick-failure recovery frame -/

/-- C10: the tick-failure recovery rewrites only `phase` (to BETTING) and
`timeLeft` (to 10); `bets`, `adminDecision`, `result`, `roundCount`,
`roundCycle` and `roundId` are untouched, so the recovered round settles
earlier bets with the same decision it would have computed before. -/
theorem tick_recovery_frame (s : SessionState) :
    (recoverSession s).phase = "BETTING" ∧
    (recoverSession s).timeLeft = 10 ∧
    (recoverSession s).bets = s.bets ∧
    (recoverSession s).adminDecision = s.adminDecision ∧
    (recoverSession s).result = s.result ∧
    (recoverSession s).roundCount = s.roundCount ∧
    (recoverSession s).roundCycle = s.roundCycle ∧
    (recoverSession s).roundId = s.roundId ∧
    computeDecision (recoverSession s).adminDecision (recoverSession s).roundCycle
        (recoverSession s).bets =
      computeDecision s.adminDecision s.roundCycle s.bets :=
  ⟨rfl, rfl, rfl, rfl, rfl, rfl, rfl, rfl, rfl⟩

/-! ## C6 — solo loss multiplier -/

/-- C6: on a solo play with `winAmount = 0` the loss multiplier is drawn by
a band selector `r ∈ [0,1)` from the four bands `[0,1/4) ↦ [1, 23/20)`,
`[1/4, 3/5) ↦ [23/20, 27/20)`, `[3/5, 17/20) ↦ [27/20, 8/5)` and
`[17/20, 1) ↦ [8/5, 9/5)` — selector intervals of measure 1/4, 7/20, 1/4
and 3/20, i.e. the 25% / 35% / 25% / 15% weights — so the multiplier always
lies in `[1, 9/5)`, and the final debit is clamped to at most the pre-play
balance. -/
theorem solo_loss_multiplier_spec (bet balance r u : ℚ)
    (_hr0 : 0 ≤ r) (hr1 : r < 1) (hu0 : 0 ≤ u) (hu1 : u < 1) (hb : 0 ≤ balance) :
    (1 ≤ lossMultiplier r u ∧ lossMultiplier r u < 9 / 5) ∧
    (r < 1 / 4 → 1 ≤ lossMultiplier r u ∧ lossMultiplier r u < 23 / 20) ∧
    (1 / 4 ≤ r → r < 3 / 5 → 23 / 20 ≤ lossMultiplier r u ∧ lossMultiplier r u < 27 / 20) ∧
    (3 / 5 ≤ r → r < 17 / 20 → 27 / 20 ≤ lossMultiplier r u ∧ lossMultiplier r u < 8 / 5) ∧
    (17 / 20 ≤ r → 8 / 5 ≤ lossMultiplier r u ∧ lossMultiplier r u < 9 / 5) ∧
    soloLossDebit bet balance r u ≤ balance := by
  have hmul : ∀ c : ℚ, 0 < c → u * c < c := by
    intro c hc
    calc u * c < 1 * c := by exact mul_lt_mul_of_pos_right hu1 hc
    _ = c := one_mul c
  have hmul0 : ∀ c : ℚ, 0 ≤ c → 0 ≤ u * c := fun c hc => mul_nonneg hu0 hc
  have hband : ∀ lo w : ℚ, 0 < w → 0 ≤ lo → lo ≤ lo + u * w ∧ lo + u * w < lo + w := by
    intro lo w hw _
    constructor
    · nlinarith [hmul0 w (le_of_lt hw)]
    · nlinarith [hmul w hw]
  refine ⟨?_, ?_, ?_, ?_, ?_, ?_⟩
  · by_cases h1 : r < 1 / 4
    · have := hband 1 (3 / 20) (by norm_num) (by norm_num)
      simp only [lossMultiplier, if_pos h1]
      constructor <;> nlinarith [this.1, this.2]
    · by_cases h2 : r < 3 / 5
      · have := hband (23 / 20) (1 / 5) (by norm_num) (by norm_num)
        simp only [lossMultiplier, if_neg h1, if_pos h2]
        constructor <;> nlinarith [this.1, this.2]
      · by_cases h3 : r < 17 / 20
        · have := hband (27 / 20) (1 / 4) (by norm_num) (by norm_num)
          simp only [lossMultiplier, if_neg h1, if_neg h2, if_pos h3]
          constructor <;> nlinarith [this.1, this.2]
        · have := hband (8 / 5) (1 / 5) (by norm_num) (by norm_num)
          simp only [lossMultiplier, if_neg h1, if_neg h2, if_neg h3]
          constructor <;> nlinarith [this.1, this.2]
  · intro h1
    have := hband 1 (3 / 20) (by norm_num) (by norm_num)
    simp only [lossMultiplier, if_pos h1]
    constructor <;> nlinarith [this.1, this.2]
  · intro h1 h2
    have := hband (23 / 20) (1 / 5) (by norm_num) (by norm_num)
    simp only [lossMultiplier, if_neg (not_lt.mpr h1), if_pos h2]
    constructor <;> nlinarith [this.1, this.2]
  · intro h1 h2
    have := hband (27 / 20) (1 / 4) (by norm_num) (by norm_num)
    have h1' : ¬ r < 1 / 4 := by linarith
    simp only [lossMultiplier, if_neg h1', if_neg (not_lt.mpr h1), if_pos h2]
    constructor <;> nlinarith [this.1, this.2]
  · intro h1
    have := hband (8 / 5) (1 / 5) (by norm_num) (by norm_num)
    have h1' : ¬ r < 1 / 4 := by linarith
    have h2' : ¬ r < 3 / 5 := by linarith
    simp only [lossMultiplier, if_neg h1', if_neg h2', if_neg (not_lt.mpr h1)]
    constructor <;> nlinarith [this.1, this.2]
  · simp only [soloLossDebit, soloActualLoss]
    exact max_le hb (min_le_right _ _)

/-- Witness for C6: selector 0 and inner draw 1/2 give multiplier 43/40 in
the first band, and a 10-stake loss against balance 100 debits at most 100. -/
theorem solo_loss_multiplier_spec_witness :
    (1 ≤ lossMultiplier 0 (1 / 2) ∧ lossMultiplier 0 (1 / 2) < 23 / 20) ∧
    soloLossDebit 10 100 0 (1 / 2) ≤ 100 := by
  have h := solo_loss_multiplier_spec 10 100 0 (1 / 2)
    (by norm_num) (by norm_num) (by norm_num) (by norm_num) (by norm_num)
  exact ⟨h.2.1 (by norm_num), h.2.2.2.2.2⟩

/-! ## C4 — lobby loss grids -/

/-- C4: the loss-branch cap rewrite of `generateSlotOutcome` is broken.  On
the reachable uniform draw where all 30 cells hold `"heart"` (the last
symbol of the scan order) and every replacement redraw lands on `"oval"`
(the first, already-scanned symbol), the emitted loss grid holds 23 ovals —
a symbol count far above the supposed hard cap of 7, contradicting both the
claim and the source's own comment "Ensure NO symbol has more than 7
occurrences to guarantee a loss". -/
theorem loss_grid_cap_violated :
    countSym "oval" (fixLossGrid (fun _ => "oval") (List.replicate 30 "heart")) = 23 ∧
    8 ≤ countSym "oval" (fixLossGrid (fun _ => "oval") (List.replicate 30 "heart")) := by
  constructor
  · decide
  · decide

/-! ## C9 — lobby win grids -/

/-- Setting a cell that does not yet hold `sym` to `sym` increments the
symbol count by one. -/
theorem count_set_of_getD_ne (g : List String) (idx : Nat) (sym : String)
    (hidx : idx < g.length) (hne : g.getD idx "" ≠ sym) :
    (g.set idx sym).count sym = g.count sym + 1 := by
  induction g generalizing idx with
  | nil => simp at hidx
  | cons a tl ih =>
    cases idx with
    | zero =>
      simp only [List.getD_cons_zero] at hne
      simp [List.count_cons, hne]
    | succ n =>
      simp only [List.getD_cons_succ] at hne
      have hn : n < tl.length := by simpa using hidx
      simp [List.count_cons, ih n hn hne]
      omega

/-- Invariant of the forcing loop: the mutation counter never exceeds the
symbol's occurrence count, so a successful exit carries at least 12
occurrences. -/
theorem forceWinLoop_count_le (sym : String) (picks : List (Fin 6 × Fin 5)) :
    ∀ (g : List String) (count : Nat) (g' : List String),
      g.length = 30 → count ≤ g.count sym →
      forceWinLoop sym picks g count = some g' → 12 ≤ g'.count sym := by
  induction picks with
  | nil =>
    intro g count g' hlen hc h
    simp only [forceWinLoop] at h
    split at h
    · cases h; omega
    · cases h
  | cons p rest ih =>
    intro g count g' hlen hc h
    obtain ⟨c, r⟩ := p
    simp only [forceWinLoop] at h
    split at h
    · cases h; omega
    · split at h
      next hne =>
        have hidx : c.val * 5 + r.val < g.length := by
          have h1 := c.isLt
          have h2 := r.isLt
          omega
        refine ih (g.set (c.val * 5 + r.val) sym) (count + 1) g' ?_ ?_ h
        · rw [List.length_set]; exact hlen
        · rw [count_set_of_getD_ne g _ sym hidx hne]; omega
      next hne =>
        exact ih g count g' hlen hc h

/-- C9 (amended): every grid the win-forcing procedure actually emits holds
the forced symbol in at least 12 cells; but — see
`win_forcing_divergence` — the procedure does not terminate for every
initial grid, only for those where at least 12 cells differ from the chosen
symbol. -/
theorem forced_win_grid_spec (sym : String) (picks : List (Fin 6 × Fin 5))
    (g g' : List String) (hlen : g.length = 30)
    (h : forceWin sym picks g = some g') :
    12 ≤ countSym sym g' :=
  forceWinLoop_count_le sym picks g 0 g' hlen (Nat.zero_le _) h

/-- Witness for C9: forcing `"heart"` on an all-oval grid with 12 distinct
cell picks emits a grid with 12 hearts. -/
theorem forced_win_grid_spec_witness :
    12 ≤ countSym "heart" (List.replicate 12 "heart" ++ List.replicate 18 "oval") :=
  forced_win_grid_spec "heart"
    [(0, 0), (0, 1), (0, 2), (0, 3), (0, 4), (1, 0), (1, 1), (1, 2), (1, 3), (1, 4), (2, 0), (2, 1)]
    (List.replicate 30 "oval")
    (List.replicate 12 "heart" ++ List.replicate 18 "oval")
    (by decide) (by decide)

/-- On a grid whose cells all already hold the chosen symbol the forcing
loop can never mutate anything, so its counter never moves. -/
theorem forceWinLoop_stuck (sym : String) (picks : List (Fin 6 × Fin 5)) :
    ∀ (g : List String) (count : Nat),
      (∀ i < 30, g.getD i "" = sym) → count < 12 →
      forceWinLoop sym picks g count = none := by
  induction picks with
  | nil =>
    intro g count _ hcount
    simp only [forceWinLoop]
    rw [if_neg (by omega : ¬ 12 ≤ count)]
  | cons p rest ih =>
    intro g count hall hcount
    obtain ⟨c, r⟩ := p
    have hcell : g.getD (c.val * 5 + r.val) "" = sym := by
      apply hall
      have h1 := c.isLt
      have h2 := r.isLt
      omega
    simp only [forceWinLoop]
    rw [if_neg (by omega : ¬ 12 ≤ count),
      if_neg (by simp only [ne_eq, not_not]; exact hcell)]
    exact ih g count hall hcount

/-- C9 counterexample: the claim's parenthetical — that the forcing
procedure reaches a ≥ 12 count for every initial random grid — is false:
when the randomly chosen win symbol already fills the whole grid (for
concreteness, `"heart"` on the all-heart draw), fewer than 12 cells can
ever be mutated and no sequence of random cell picks completes the loop;
the source's `while (count < 12)` spins forever. -/
theorem win_forcing_divergence :
    ¬ ∃ picks : List (Fin 6 × Fin 5),
      (forceWin "heart" picks (List.replicate 30 "heart")).isSome := by
  rintro ⟨picks, hp⟩
  rw [forceWin,
    forceWinLoop_stuck "heart" picks (List.replicate 30 "heart") 0
      (by decide) (by omega)] at hp
  simp at hp

/-! ## C1 — lobby settlement balance adjustment -/

/-- C1: the lobby settlement's loss branch never touches the balance.
Against a ledger with user `"u1"` at balance 100, settling its 50-stake
`"loss"`-side bet in a round decided `"win"` appends a completed
`game_loss` transaction of 50 yet leaves the balance at 100, where the
claim requires a debit of exactly the stake (to 50); the win branch does
credit exactly stake × 2 (third conjunct: 100 + 50·2 = 200). -/
theorem lobby_loss_no_debit :
    balanceOf (settleBet "win" ⟨[("u1", ⟨100, "active", 0⟩)], [], []⟩
      ⟨"u1", 50, "loss"⟩) "u1" = 100 ∧
    (settleBet "win" ⟨[("u1", ⟨100, "active", 0⟩)], [], []⟩
      ⟨"u1", 50, "loss"⟩).transactions = [⟨"u1", "game_loss", 50⟩] ∧
    balanceOf (settleBet "win" ⟨[("u1", ⟨100, "active", 0⟩)], [], []⟩
      ⟨"u1", 50, "win"⟩) "u1" = 200 := by
  refine ⟨by decide, by decide, ?_⟩
  norm_num [settleBet, balanceOf, findUser, updateUser, List.find?]

/-! ## C2 — ledger record pairs -/

/-- C2 counterexample: settling one non-anonymous lobby bet of a known user
appends one Transaction but zero BalanceHistory records, refuting "exactly
one Transaction record AND exactly one BalanceHistory record" for settled
lobby bets. -/
theorem ledger_pair_counterexample :
    (processPayouts "win" ⟨[("u2", ⟨100, "active", 0⟩)], [], []⟩
      [⟨"u2", 50, "loss"⟩]).transactions.length = 1 ∧
    (processPayouts "win" ⟨[("u2", ⟨100, "active", 0⟩)], [], []⟩
      [⟨"u2", 50, "loss"⟩]).histories.length = 0 :=
  ⟨by decide, by decide⟩

/-- A successful solo play appends exactly one Transaction and one
BalanceHistory record. -/
theorem soloPlay_appends (db db' : DB) (userId : String) (bet : ℚ)
    (grid : List String) (draw : Nat → String → ℚ) (sdraw r u : ℚ)
    (h : soloPlay db userId bet grid draw sdraw r u = Except.ok db') :
    db'.transactions.length = db.transactions.length + 1 ∧
    db'.histories.length = db.histories.length + 1 := by
  simp only [soloPlay] at h
  repeat' split at h
  any_goals exact Except.noConfusion h
  all_goals cases h
  all_goals simp [soloCommit]

/-- C2 (amended): a successful solo play appends exactly one Transaction and
exactly one BalanceHistory record; a settled lobby bet (non-anonymous,
known user) appends exactly one Transaction and NO BalanceHistory record. -/
theorem ledger_writes_spec (db dbL db' : DB) (userId outcome : String) (bet : ℚ)
    (grid : List String) (draw : Nat → String → ℚ) (sdraw r u : ℚ) (b : Bet)
    (hsolo : soloPlay db userId bet grid draw sdraw r u = Except.ok db')
    (hanon : b.userId ≠ "anonymous") (hfound : (findUser dbL b.userId).isSome) :
    (db'.transactions.length = db.transactions.length + 1 ∧
     db'.histories.length = db.histories.length + 1) ∧
    ((settleBet outcome dbL b).transactions.length = dbL.transactions.length + 1 ∧
     (settleBet outcome dbL b).histories = dbL.histories) := by
  refine ⟨soloPlay_appends db db' userId bet grid draw sdraw r u hsolo, ?_⟩
  unfold settleBet
  rw [if_neg hanon]
  obtain ⟨usr, husr⟩ := Option.isSome_iff_exists.mp hfound
  rw [husr]
  by_cases hside : b.side = outcome
  · simp [hside]
  · simp [hside]

/-! ## C5 — solo scatter payouts -/

/-- A `symbolCounts` group with count ≤ 2 pays nothing, whatever the draw. -/
theorem lineContribution_of_le_two (bet mult : ℚ) (count : Nat) (draw : ℚ)
    (hk : count ≤ 2) : lineContribution bet mult count draw = 0 := by
  unfold lineContribution
  rw [if_neg (by omega : ¬ 5 ≤ count), if_neg (by omega : ¬ 4 ≤ count),
    if_neg (by rintro ⟨h3, _⟩; omega)]

/-- A grid in which no (row, symbol) group reaches 3 matching reels pays no
line win under any draws. -/
theorem lineWins_eq_zero (g : List String) (bet : ℚ) (draw : Nat → String → ℚ)
    (h : ∀ row < 3, ∀ sym ∈ g.dedup, colCount g row sym ≤ 2) :
    lineWins g bet draw = 0 := by
  unfold lineWins
  apply List.sum_eq_zero
  intro x hx
  simp only [List.mem_map, List.mem_range] at hx
  obtain ⟨row, hrow, rfl⟩ := hx
  apply List.sum_eq_zero
  intro y hy
  simp only [List.mem_map] at hy
  obtain ⟨sym, hsym, rfl⟩ := hy
  exact lineContribution_of_le_two _ _ _ _ (h row hrow sym hsym)

/-- A concrete solo grid with exactly 4 scatters (`"star"` cells) and no
(row, symbol) group above 2, so its whole payout is the scatter branch. -/
def gridFourScatters : List String :=
  ["star", "grape", "orange", "star", "lemon", "watermelon",
   "grape", "star", "watermelon", "orange", "lemon", "star",
   "grape", "banana", "apple", "orange", "banana", "apple"]

/-- C5 counterexample: the claim says a 4-scatter grid pays only
probabilistically (some draws pay, some do not), but the source's 4-scatter
branch is `totalWin += betAmount * 1.0` with no random gate: on this
4-scatter grid the win amount is positive under EVERY pair of random
draws. -/
theorem four_scatter_always_pays :
    scatterCount gridFourScatters = 4 ∧
    ∀ (draw : Nat → String → ℚ) (sdraw : ℚ),
      0 < soloWinAmount gridFourScatters 1 draw sdraw := by
  refine ⟨by decide, ?_⟩
  intro draw sdraw
  unfold soloWinAmount
  rw [lineWins_eq_zero _ _ _ (by decide),
    (by decide : scatterCount gridFourScatters = 4)]
  have hs : scatterContribution 1 4 sdraw = 1 := by
    unfold scatterContribution
    rw [if_neg (by omega : ¬ 5 ≤ 4), if_pos (by omega : 4 ≤ 4)]
    norm_num
  rw [hs]
  norm_num [roundTo2]

/-- C5 (amended): the scatter payout of the solo reel computation is flat —
independent of the random draw — for 4, 5 and 6+ scatters (1.0×, 1.5× and
2.5× the bet respectively); only a 3-scatter grid pays probabilistically,
0.6× the bet exactly when its fresh draw is below 0.2 and nothing
otherwise. -/
theorem scatter_payout_spec (g : List String) (bet : ℚ) (d : ℚ)
    (_hbet : 0 < bet) :
    (scatterCount g = 5 → scatterContribution bet (scatterCount g) d = bet * (3 / 2)) ∧
    (6 ≤ scatterCount g → scatterContribution bet (scatterCount g) d = bet * (5 / 2)) ∧
    (scatterCount g = 4 → scatterContribution bet (scatterCount g) d = bet) ∧
    (scatterCount g = 3 →
      ((d < 1 / 5 → scatterContribution bet (scatterCount g) d = bet * (3 / 5)) ∧
       (1 / 5 ≤ d → scatterContribution bet (scatterCount g) d = 0))) := by
  refine ⟨?_, ?_, ?_, ?_⟩
  · intro h5
    rw [h5]
    unfold scatterContribution
    rw [if_pos (by omega : 5 ≤ 5), if_pos rfl]
  · intro h6
    unfold scatterContribution
    rw [if_pos (by omega : 5 ≤ scatterCount g),
      if_neg (by omega : ¬ scatterCount g = 5), if_pos h6]
  · intro h4
    rw [h4]
    unfold scatterContribution
    rw [if_neg (by omega : ¬ 5 ≤ 4), if_pos (by omega : 4 ≤ 4)]
    exact mul_one bet
  · intro h3
    constructor
    · intro hd
      rw [h3]
      unfold scatterContribution
      rw [if_neg (by omega : ¬ 5 ≤ 3), if_neg (by omega : ¬ 4 ≤ 3),
        if_pos ⟨rfl, hd⟩]
    · intro hd
      rw [h3]
      unfold scatterContribution
      rw [if_neg (by omega : ¬ 5 ≤ 3), if_neg (by omega : ¬ 4 ≤ 3),
        if_neg (by rintro ⟨_, hlt⟩; linarith)]

/-- A concrete solo grid with exactly 5 scatters. -/
def gridFiveScatters : List String :=
  ["star", "grape", "orange", "star", "lemon", "watermelon",
   "grape", "star", "watermelon", "orange", "lemon", "star",
   "star", "banana", "apple", "orange", "banana", "apple"]

/-- Witness for C5 (amended): a 5-scatter grid pays the flat 1.5× scatter
multiplier on a 2-stake. -/
theorem scatter_payout_spec_witness :
    scatterContribution 2 (scatterCount gridFiveScatters) 0 = 2 * (3 / 2) :=
  (scatter_payout_spec gridFiveScatters 2 0 (by norm_num)).1 (by decide)

/-- Concrete solo ledger: user `"u1"` at balance 100, empty ledgers. -/
def dbSoloStart : DB := ⟨[("u1", ⟨100, "active", 0⟩)], [], []⟩

/-- A solo grid with no qualifying combination: every (row, symbol) group
covers at most 2 reels and there are no scatter symbols. -/
def gridNoCombo : List String :=
  ["grape", "watermelon", "strawberry", "grape", "watermelon", "strawberry",
   "orange", "banana", "grape", "orange", "banana", "orange",
   "lemon", "apple", "lemon", "lemon", "apple", "banana"]

/-- The committed state of the witness play: stake 10 on `gridNoCombo` with
band selector 0 and inner draw 0 (multiplier 1, actual loss 10). -/
def dbSoloEnd : DB :=
  ⟨[("u1", ⟨90, "active", 0⟩)], [⟨"u1", "game_loss", 10⟩],
   [⟨"u1", "loss", 100, 90, -10⟩]⟩

/-- Witness for C2 (amended): a concrete losing solo play appends exactly
one Transaction and one BalanceHistory record, and a concrete settled
lobby bet appends one Transaction and no BalanceHistory record. -/
theorem ledger_writes_spec_witness :
    dbSoloEnd.transactions.length = dbSoloStart.transactions.length + 1 ∧
    dbSoloEnd.histories.length = dbSoloStart.histories.length + 1 ∧
    (settleBet "win" dbSoloStart ⟨"u1", 50, "loss"⟩).transactions.length =
      dbSoloStart.transactions.length + 1 ∧
    (settleBet "win" dbSoloStart ⟨"u1", 50, "loss"⟩).histories = dbSoloStart.histories := by
  have hplay : soloPlay dbSoloStart "u1" 10 gridNoCombo (fun _ _ => 1 / 2) (1 / 2) 0 0 =
      Except.ok dbSoloEnd := by
    have hw : soloWinAmount gridNoCombo 10 (fun _ _ => 1 / 2) (1 / 2) = 0 := by
      unfold soloWinAmount
      rw [lineWins_eq_zero _ _ _ (by decide), (by decide : scatterCount gridNoCombo = 0)]
      have h0 : scatterContribution 10 0 (1 / 2) = 0 := by
        unfold scatterContribution
        rw [if_neg (by omega : ¬ 5 ≤ 0), if_neg (by omega : ¬ 4 ≤ 0),
          if_neg (by rintro ⟨h3, _⟩; omega)]
      rw [h0]
      norm_num [roundTo2]
    have hfind : findUser dbSoloStart "u1" = some ⟨100, "active", 0⟩ := by decide
    have hAL : soloActualLoss 10 100 0 0 0 = 10 := by
      norm_num [soloActualLoss, lossMultiplier]
    have hCommit : soloCommit dbSoloStart "u1" 100 0 10 = dbSoloEnd := by
      norm_num [soloCommit, soloFinalBalance, updateUser, dbSoloStart, dbSoloEnd]
    rw [soloPlay, hfind]
    norm_num [hw, hAL, hCommit, soloFinalBalance]
  have h := ledger_writes_spec dbSoloStart dbSoloStart dbSoloEnd "u1" "win" 10
    gridNoCombo (fun _ _ => 1 / 2) (1 / 2) 0 0 ⟨"u1", 50, "loss"⟩
    hplay (by decide) (by decide)
  exact ⟨h.1.1, h.1.2, h.2.1, h.2.2⟩
